import Mathlib

/-!
Verification of the audio capture/playback reliability layer
(source module: audio.ts, "Bulletproof audio recording & playback").

The recording side is modelled as an explicit state machine over a
`RecState` record, with the wall clock (`Date.now()`) passed as a `Nat`
millisecond argument and the underlying `MediaRecorder` device described
by a `DevBehavior` record (whether its calls throw, when its stop signal
arrives, which data it flushes before that signal).  Every interaction
the code performs with the device is logged as a `DevOp` so that claims
of the form "performs no device interaction" are directly statable.

The playback side (`playBlob`) is modelled as a small-step system: each
call spawns a pipeline instance whose atomic segments are the code
fragments between consecutive awaits, and a scheduler action list picks
an arbitrary interleaving of pipeline segments, cancellations, new
`playBlob` calls and device completion events.  Caller callbacks that
actually fire are accumulated in a log.
-/

-- ─── Blobs and artifacts ─────────────────────────────────────

/-- Model of a JS Blob: its byte contents plus its mime type string. -/
structure Blob where
  data : List Nat
  type : String
deriving DecidableEq

/-- The artifact returned by Recorder.stop: blob plus duration in seconds
(the source computes (Date.now() - startTime) / 1000). -/
structure Recording where
  blob : Blob
  duration : ℚ
deriving DecidableEq

-- ─── Microphone stream and health check ──────────────────────

/-- Lifecycle state of a media track (readyState). -/
inductive TrackState where
  | live
  | ended
deriving DecidableEq

/-- Model of a MediaStream: the list of its audio tracks. -/
structure MediaStream where
  audioTracks : List TrackState
deriving DecidableEq

/-- Source isStreamActive: tracks.length > 0 and tracks[0].readyState is
live. -/
def isStreamActive (stream : MediaStream) : Bool :=
  match stream.audioTracks.head? with
  | some t => t = TrackState.live
  | none => false

-- ─── MIME type negotiation ───────────────────────────────────

/-- Source getSupportedMimeType, generalised over the candidate list it
iterates and over the platform capability query.  The query returns
some b for a normal answer and none when it throws; a throw is caught
and treated as not supported, exactly as the try/catch in the source. -/
def getSupportedMimeType (isTypeSupported : String → Option Bool) :
    List String → String
  | [] => ""
  | t :: rest =>
    match isTypeSupported t with
    | some true => t
    | some false => getSupportedMimeType isTypeSupported rest
    | none => getSupportedMimeType isTypeSupported rest

/-- The concrete candidate list hard-coded in the source. -/
def mimeCandidates : List String :=
  ["audio/mp4", "audio/webm;codecs=opus", "audio/webm",
   "audio/ogg;codecs=opus", "audio/ogg"]

-- ─── Recorder state machine ──────────────────────────────────

/-- MediaRecorder.state as read by the code (only the recording case is
ever tested). -/
inductive MRState where
  | inactive
  | recording
deriving DecidableEq

/-- Closure state of one createRecorder call: the chunks buffer, the
negotiated mime type, the mime type the device itself reports
(recorder.mimeType), the startTime timestamp (0 = never set, which is
falsy in the source guard), the stopped flag and the device state. -/
structure RecState where
  chunks : List (List Nat)
  mimeType : String
  recMimeType : String
  startTime : Nat
  stopped : Bool
  devState : MRState
deriving DecidableEq

/-- Device interactions a Recorder can issue; start carries the
timeslice argument (none on Apple platforms, 200 elsewhere). -/
inductive DevOp where
  | start (timeslice : Option Nat)
  | requestData
  | stop
deriving DecidableEq

/-- Errors a Recorder operation can surface. -/
inductive RecErr where
  | micDead
  | deviceFault
deriving DecidableEq

/-- Behaviour of the underlying MediaRecorder during a stop interaction:
whether requestData throws, whether stop throws synchronously, how many
milliseconds after the stop instruction the onstop signal fires (none =
the device never signals), and the data chunks the device delivers
before that signal. -/
structure DevBehavior where
  requestDataThrows : Bool
  stopThrows : Bool
  onstopDelay : Option Nat
  flushedChunks : List (List Nat)
deriving DecidableEq

/-- Source buildBlob: new Blob(chunks, type) where type is
recorder.mimeType or else the negotiated mimeType or else audio/mp4
(JS short-circuit on nonempty strings). -/
def buildBlob (s : RecState) : Blob :=
  { data := s.chunks.flatten
    type :=
      if s.recMimeType ≠ "" then s.recMimeType
      else if s.mimeType ≠ "" then s.mimeType
      else "audio/mp4" }

/-- State of a freshly constructed recorder: empty buffer, negotiated
mime type from getSupportedMimeType over the hard-coded candidates,
startTime unset, not stopped, device inactive. -/
def createRecorderState (isTypeSupported : String → Option Bool)
    (recMime : String) : RecState :=
  { chunks := []
    mimeType := getSupportedMimeType isTypeSupported mimeCandidates
    recMimeType := recMime
    startTime := 0
    stopped := false
    devState := MRState.inactive }

/-- Source start(): re-validate stream health (throw MIC_DEAD if not
live, before touching any state), then reset the buffer, clear the
stopped flag, record the start timestamp and call recorder.start —
plain on Apple platforms, with a 200 ms timeslice elsewhere.  The bare
recorder.start call sits outside any try/catch, so a device fault there
propagates to the caller; startThrows models that fault. -/
def recStart (now : Nat) (apple : Bool) (startThrows : Bool)
    (stream : MediaStream) (s : RecState) :
    RecState × List DevOp × Option RecErr :=
  if !isStreamActive stream then
    (s, [], some RecErr.micDead)
  else
    let s1 : RecState :=
      { s with chunks := [], stopped := false, startTime := now }
    let op : DevOp := if apple then DevOp.start none else DevOp.start (some 200)
    if startThrows then (s1, [op], some RecErr.deviceFault)
    else ({ s1 with devState := MRState.recording }, [op], none)

/-- Outcome of one stop() call: when the returned promise resolves (in
absolute milliseconds), the artifact it resolves with, the closure state
afterwards, and the device interactions issued. -/
structure StopResult where
  resolveAt : Nat
  artifact : Recording
  stateAfter : RecState
  devOps : List DevOp
deriving DecidableEq

/-- Source stop().  Guard path (already stopped, or device state not
recording): set stopped, build the blob from the current buffer, compute
the duration only when startTime was ever set, resolve immediately, no
device interaction.  Otherwise set stopped synchronously, arm the 3000 ms
safety timeout, install onstop, optionally flush via requestData on
Apple platforms (its own try/catch swallows a throw), then call
recorder.stop inside try/catch: a synchronous throw clears the timeout
and resolves immediately from the buffered data; otherwise the onstop
signal (delivering the flushed chunks first) races the timeout and
whichever comes first resolves the promise. -/
def recStop (now : Nat) (apple : Bool) (dev : DevBehavior) (s : RecState) :
    StopResult :=
  if s.stopped || s.devState ≠ MRState.recording then
    { resolveAt := now
      artifact :=
        { blob := buildBlob s
          duration :=
            if s.startTime ≠ 0 then ((now - s.startTime : ℕ) : ℚ) / 1000
            else 0 }
      stateAfter := { s with stopped := true }
      devOps := [] }
  else
    let s1 : RecState := { s with stopped := true }
    let flushOps : List DevOp := if apple then [DevOp.requestData] else []
    if dev.stopThrows then
      { resolveAt := now
        artifact :=
          { blob := buildBlob s1
            duration := ((now - s1.startTime : ℕ) : ℚ) / 1000 }
        stateAfter := s1
        devOps := flushOps ++ [DevOp.stop] }
    else
      let s2 : RecState := { s1 with devState := MRState.inactive }
      match dev.onstopDelay with
      | some d =>
        if d < 3000 then
          let s3 : RecState := { s2 with chunks := s2.chunks ++ dev.flushedChunks }
          { resolveAt := now + d
            artifact :=
              { blob := buildBlob s3
                duration := ((now + d - s3.startTime : ℕ) : ℚ) / 1000 }
            stateAfter := s3
            devOps := flushOps ++ [DevOp.stop] }
        else
          { resolveAt := now + 3000
            artifact :=
              { blob := buildBlob s2
                duration := ((now + 3000 - s2.startTime : ℕ) : ℚ) / 1000 }
            stateAfter := s2
            devOps := flushOps ++ [DevOp.stop] }
      | none =>
        { resolveAt := now + 3000
          artifact :=
            { blob := buildBlob s2
              duration := ((now + 3000 - s2.startTime : ℕ) : ℚ) / 1000 }
          stateAfter := s2
          devOps := flushOps ++ [DevOp.stop] }

/-- Source ondataavailable handler: push the chunk iff it is nonempty. -/
def recOnData (chunk : List Nat) (s : RecState) : RecState :=
  if chunk ≠ [] then { s with chunks := s.chunks ++ [chunk] } else s

/-- Source onerror handler: mark the recorder stopped. -/
def recOnError (s : RecState) : RecState :=
  { s with stopped := true }

/-- Source isRecording(): not stopped and device state is recording. -/
def recIsRecording (s : RecState) : Bool :=
  !s.stopped && s.devState = MRState.recording

-- ─── Audio priming ───────────────────────────────────────────

/-- The 44 byte silent WAV data URI the source plays to unlock audio. -/
def SILENT_WAV : String :=
  "data:audio/wav;base64,UklGRiQAAABXQVZFZm10IBAAAAABAAEAQB8AAIA+AAACABAAZGF0YQAAAAA="

/-- State of the priming component: the audioPrimed flag and the shared
element src. -/
structure PrimeSt where
  primed : Bool
  src : Option String
deriving DecidableEq

/-- Source primeAudio(): return immediately when already primed;
otherwise set the silent WAV as src and invoke play on the shared
element.  The Bool reports whether the unlock device interaction (the
play call) was performed by this invocation.  The play promise settles
later: primeThen and primeCatch below are its continuations. -/
def primeAudio (st : PrimeSt) : PrimeSt × Bool :=
  if st.primed then (st, false)
  else ({ st with src := some SILENT_WAV }, true)

/-- Continuation run when the unlock play promise resolves: set
audioPrimed. -/
def primeThen (st : PrimeSt) : PrimeSt :=
  { st with primed := true }

/-- Continuation run when the unlock play promise rejects: nothing is
changed, priming will be retried on the next gesture. -/
def primeCatch (st : PrimeSt) : PrimeSt :=
  st

-- ─── Playback small-step system ──────────────────────────────

/-- Which caller callback fired. -/
inductive PCb where
  | ended
  | error
deriving DecidableEq

/-- Behaviour of the platform for one playBlob pipeline: whether the
blob to data URI conversion resolves, whether the readiness wait settles
successfully (canplaythrough or the 3 s force-play timeout) rather than
rejecting through the error listener, and whether the play() promise
resolves. -/
structure PBehavior where
  convOk : Bool
  readyOk : Bool
  playOk : Bool
deriving DecidableEq

/-- Program counter of one pipeline instance: suspended on the data URI
conversion, on the readiness promise, on the play() promise, or done. -/
inductive PPC where
  | waitConv
  | waitReady
  | waitPlay
  | done
deriving DecidableEq

/-- One playBlob pipeline instance: where it is suspended, its cancelled
flag and the platform behaviour it will observe. -/
structure PInst where
  pc : PPC
  cancelled : Bool
  beh : PBehavior
deriving DecidableEq

/-- The shared audio element: which pipeline instance owns the current
src, whose closures occupy the onended and onerror slots, and whether
the element is paused. -/
structure AudioSt where
  srcOf : Option Nat
  onended : Option Nat
  onerror : Option Nat
  paused : Bool
deriving DecidableEq

/-- Whole playback system: spawned pipeline instances (identified by
list position), the shared element, and the log of caller callbacks
that actually fired. -/
structure PlayerSys where
  insts : List PInst
  audio : AudioSt
  fired : List (Nat × PCb)
deriving DecidableEq

/-- Look up a list position. -/
def getIdx : List PInst → Nat → Option PInst
  | [], _ => none
  | p :: _, 0 => some p
  | _ :: l, Nat.succ n => getIdx l n

/-- Apply a function at one list position. -/
def modifyIdx (f : PInst → PInst) : Nat → List PInst → List PInst
  | _, [] => []
  | 0, p :: l => f p :: l
  | Nat.succ n, p :: l => p :: modifyIdx f n l

/-- Move instance i to the given program counter. -/
def setPC (c : PPC) (i : Nat) (l : List PInst) : List PInst :=
  modifyIdx (fun p => { p with pc := c }) i l

/-- Set the cancelled flag of instance i. -/
def setCancelled (i : Nat) (l : List PInst) : List PInst :=
  modifyIdx (fun p => { p with cancelled := true }) i l

/-- Scheduler actions: a new playBlob call (spawning the next instance),
invoking the cleanup function returned for instance i, advancing the
suspended pipeline of instance i by one atomic segment, or the element
dispatching an ended or error event to the currently installed
handler. -/
inductive PAct where
  | play (b : PBehavior)
  | cancel (i : Nat)
  | step (i : Nat)
  | evEnded
  | evError
deriving DecidableEq

/-- One scheduler action.

play: the synchronous prologue of playBlob — pause the element, remove
its src, null both handler slots — then spawn the pipeline suspended on
the data URI conversion (the async body runs synchronously only up to
that first await, and its initial cancelled check trivially passes
because the flag is created false).

cancel i: the cleanup closure returned by playBlob for instance i — set
that instance's cancelled flag, pause the element and null both handler
slots, unconditionally.

evEnded and evError: the element dispatches the event to the installed
closure, which invokes the caller callback only if its instance is not
cancelled.

step i: the next segment of pipeline i.  From waitConv: a rejected
conversion goes to the catch, which fires onError only if not
cancelled; a resolved conversion first checks cancelled (return), then
sets the src and installs both handler closures and suspends on the
readiness promise.  From waitReady: a rejection (error listener) goes
to the catch with the same guard; a resolution checks cancelled
(return), then issues play() and suspends on its promise.  From
waitPlay: a resolution ends the pipeline; a rejection goes to the catch
with the same guard. -/
def pApply (sys : PlayerSys) (a : PAct) : PlayerSys :=
  match a with
  | PAct.play b =>
    { insts := sys.insts ++ [{ pc := PPC.waitConv, cancelled := false, beh := b }],
      audio := { srcOf := none, onended := none, onerror := none, paused := true },
      fired := sys.fired }
  | PAct.cancel i =>
    { insts := setCancelled i sys.insts,
      audio := { sys.audio with onended := none, onerror := none, paused := true },
      fired := sys.fired }
  | PAct.evEnded =>
    match sys.audio.onended with
    | none => sys
    | some i =>
      match getIdx sys.insts i with
      | none => sys
      | some p =>
        if p.cancelled then sys
        else { sys with fired := sys.fired ++ [(i, PCb.ended)] }
  | PAct.evError =>
    match sys.audio.onerror with
    | none => sys
    | some i =>
      match getIdx sys.insts i with
      | none => sys
      | some p =>
        if p.cancelled then sys
        else { sys with fired := sys.fired ++ [(i, PCb.error)] }
  | PAct.step i =>
    match getIdx sys.insts i with
    | none => sys
    | some p =>
      match p.pc with
      | PPC.done => sys
      | PPC.waitConv =>
        if p.beh.convOk = false then
          if p.cancelled then { sys with insts := setPC PPC.done i sys.insts }
          else
            { sys with insts := setPC PPC.done i sys.insts,
                       fired := sys.fired ++ [(i, PCb.error)] }
        else if p.cancelled then { sys with insts := setPC PPC.done i sys.insts }
        else
          { sys with insts := setPC PPC.waitReady i sys.insts,
                     audio := { srcOf := some i, onended := some i,
                                onerror := some i, paused := sys.audio.paused } }
      | PPC.waitReady =>
        if p.beh.readyOk = false then
          if p.cancelled then { sys with insts := setPC PPC.done i sys.insts }
          else
            { sys with insts := setPC PPC.done i sys.insts,
                       fired := sys.fired ++ [(i, PCb.error)] }
        else if p.cancelled then { sys with insts := setPC PPC.done i sys.insts }
        else
          { sys with insts := setPC PPC.waitPlay i sys.insts,
                     audio := { sys.audio with paused := false } }
      | PPC.waitPlay =>
        if p.beh.playOk then { sys with insts := setPC PPC.done i sys.insts }
        else if p.cancelled then { sys with insts := setPC PPC.done i sys.insts }
        else
          { sys with insts := setPC PPC.done i sys.insts,
                     fired := sys.fired ++ [(i, PCb.error)] }

/-- The system before any playBlob call: no instances, element detached
and paused, nothing fired. -/
def initSys : PlayerSys :=
  { insts := []
    audio := { srcOf := none, onended := none, onerror := none, paused := true }
    fired := [] }

/-- Run a scheduler action list from a given system. -/
def runFrom (sys : PlayerSys) (acts : List PAct) : PlayerSys :=
  acts.foldl pApply sys

/-- Run a scheduler action list from the initial system. -/
def run (acts : List PAct) : PlayerSys :=
  runFrom initSys acts

/-- Cancelled flag of the instance at one list position (false when it
does not exist). -/
def lcancelled (l : List PInst) (i : Nat) : Bool :=
  match getIdx l i with
  | some p => p.cancelled
  | none => false

/-- Cancelled flag of instance i (false when it does not exist). -/
def pcancelled (sys : PlayerSys) (i : Nat) : Bool :=
  lcancelled sys.insts i


-- ─── Helper lemmas for the playback system ───────────────────

theorem getIdx_modifyIdx_self (f : PInst → PInst) (i : Nat) (l : List PInst) :
    getIdx (modifyIdx f i l) i = (getIdx l i).map f := by
  induction l generalizing i with
  | nil => cases i <;> simp [getIdx, modifyIdx]
  | cons p l ih =>
    cases i with
    | zero => simp [getIdx, modifyIdx]
    | succ n => simpa [getIdx, modifyIdx] using ih n

theorem getIdx_modifyIdx_ne (f : PInst → PInst) {i j : Nat} (h : j ≠ i)
    (l : List PInst) : getIdx (modifyIdx f i l) j = getIdx l j := by
  induction l generalizing i j with
  | nil => cases i <;> simp [getIdx, modifyIdx]
  | cons p l ih =>
    cases i with
    | zero =>
      cases j with
      | zero => exact absurd rfl h
      | succ m => simp [getIdx, modifyIdx]
    | succ n =>
      cases j with
      | zero => simp [getIdx, modifyIdx]
      | succ m =>
        have hm : m ≠ n := by omega
        simpa [getIdx, modifyIdx] using ih hm

theorem getIdx_append_some {l : List PInst} {j : Nat} {p : PInst}
    (h : getIdx l j = some p) (x : PInst) : getIdx (l ++ [x]) j = some p := by
  induction l generalizing j with
  | nil => simp [getIdx] at h
  | cons q l ih =>
    cases j with
    | zero => simpa [getIdx] using h
    | succ m =>
      simp only [getIdx] at h
      simpa [getIdx] using ih h

theorem getIdx_of_lt : ∀ (l : List PInst) (i : Nat), i < l.length →
    ∃ p, getIdx l i = some p := by
  intro l
  induction l with
  | nil => intro i h; simp at h
  | cons q l ih =>
    intro i h
    cases i with
    | zero => exact ⟨q, rfl⟩
    | succ m => exact ih m (by simpa using h)

theorem lcancelled_setPC (c : PPC) (i j : Nat) (l : List PInst) :
    lcancelled (setPC c i l) j = lcancelled l j := by
  by_cases h : j = i
  · subst h
    unfold lcancelled setPC
    rw [getIdx_modifyIdx_self]
    cases getIdx l j <;> rfl
  · unfold lcancelled setPC
    rw [getIdx_modifyIdx_ne _ h]

theorem lcancelled_setCancelled_mono (i j : Nat) (l : List PInst)
    (h : lcancelled l j = true) : lcancelled (setCancelled i l) j = true := by
  by_cases hij : j = i
  · subst hij
    unfold lcancelled setCancelled
    rw [getIdx_modifyIdx_self]
    cases hj : getIdx l j with
    | none =>
      unfold lcancelled at h
      rw [hj] at h
      exact absurd h (by simp)
    | some p => rfl
  · unfold lcancelled setCancelled at *
    rw [getIdx_modifyIdx_ne _ hij]
    exact h

theorem lcancelled_setCancelled_self (i : Nat) (l : List PInst)
    (h : i < l.length) : lcancelled (setCancelled i l) i = true := by
  obtain ⟨p, hp⟩ := getIdx_of_lt l i h
  unfold lcancelled setCancelled
  rw [getIdx_modifyIdx_self, hp]
  rfl

theorem lcancelled_append (x : PInst) (j : Nat) (l : List PInst)
    (h : lcancelled l j = true) : lcancelled (l ++ [x]) j = true := by
  unfold lcancelled at *
  cases hj : getIdx l j with
  | none => rw [hj] at h; exact absurd h (by simp)
  | some p =>
    rw [hj] at h
    rw [getIdx_append_some hj]
    exact h

theorem setCancelled_idem (i : Nat) (l : List PInst) :
    setCancelled i (setCancelled i l) = setCancelled i l := by
  induction l generalizing i with
  | nil => cases i <;> rfl
  | cons p l ih =>
    cases i with
    | zero => rfl
    | succ n => simpa [setCancelled, modifyIdx] using ih n

/-- Shape analysis of one scheduler action: the fired log either stays
unchanged or grows by one callback of an instance whose cancelled flag
was false when it fired, and the instance list changes only by spawning,
moving a program counter or setting a cancelled flag. -/
theorem pApply_shape (sys : PlayerSys) (a : PAct) :
    ((pApply sys a).fired = sys.fired ∨
      ∃ j k p, getIdx sys.insts j = some p ∧ p.cancelled = false ∧
        (pApply sys a).fired = sys.fired ++ [(j, k)]) ∧
    ((pApply sys a).insts = sys.insts ∨
      (∃ x, (pApply sys a).insts = sys.insts ++ [x]) ∨
      (∃ c j, (pApply sys a).insts = setPC c j sys.insts) ∨
      (∃ j, (pApply sys a).insts = setCancelled j sys.insts)) := by
  cases a with
  | play b => exact ⟨Or.inl rfl, Or.inr (Or.inl ⟨_, rfl⟩)⟩
  | cancel i => exact ⟨Or.inl rfl, Or.inr (Or.inr (Or.inr ⟨i, rfl⟩))⟩
  | evEnded =>
    obtain ⟨insts, ⟨srcOf, onended, onerror, paused⟩, fired⟩ := sys
    cases onended with
    | none => exact ⟨Or.inl rfl, Or.inl rfl⟩
    | some i =>
      simp only [pApply]
      cases hg : getIdx insts i with
      | none => exact ⟨Or.inl rfl, Or.inl rfl⟩
      | some p =>
        obtain ⟨pc, cancelled, beh⟩ := p
        cases cancelled with
        | true => exact ⟨Or.inl rfl, Or.inl rfl⟩
        | false => exact ⟨Or.inr ⟨i, PCb.ended, _, hg, rfl, rfl⟩, Or.inl rfl⟩
  | evError =>
    obtain ⟨insts, ⟨srcOf, onended, onerror, paused⟩, fired⟩ := sys
    cases onerror with
    | none => exact ⟨Or.inl rfl, Or.inl rfl⟩
    | some i =>
      simp only [pApply]
      cases hg : getIdx insts i with
      | none => exact ⟨Or.inl rfl, Or.inl rfl⟩
      | some p =>
        obtain ⟨pc, cancelled, beh⟩ := p
        cases cancelled with
        | true => exact ⟨Or.inl rfl, Or.inl rfl⟩
        | false => exact ⟨Or.inr ⟨i, PCb.error, _, hg, rfl, rfl⟩, Or.inl rfl⟩
  | step i =>
    obtain ⟨insts, audio, fired⟩ := sys
    simp only [pApply]
    cases hg : getIdx insts i with
    | none => exact ⟨Or.inl rfl, Or.inl rfl⟩
    | some p =>
      obtain ⟨pc, cancelled, ⟨convOk, readyOk, playOk⟩⟩ := p
      cases pc <;> cases cancelled <;> cases convOk <;> cases readyOk <;>
        cases playOk <;>
        first
        | exact ⟨Or.inl rfl, Or.inl rfl⟩
        | exact ⟨Or.inl rfl, Or.inr (Or.inr (Or.inl ⟨_, i, rfl⟩))⟩
        | exact ⟨Or.inr ⟨i, PCb.error, _, hg, rfl, rfl⟩,
                 Or.inr (Or.inr (Or.inl ⟨_, i, rfl⟩))⟩

/-- Once an instance is cancelled it stays cancelled under every
scheduler action. -/
theorem pcancelled_mono (sys : PlayerSys) (a : PAct) (i : Nat)
    (h : pcancelled sys i = true) : pcancelled (pApply sys a) i = true := by
  obtain ⟨-, hs⟩ := pApply_shape sys a
  unfold pcancelled at *
  rcases hs with h1 | ⟨x, h1⟩ | ⟨c, j, h1⟩ | ⟨j, h1⟩ <;> rw [h1]
  · exact h
  · exact lcancelled_append x i sys.insts h
  · rw [lcancelled_setPC]; exact h
  · exact lcancelled_setCancelled_mono j i sys.insts h

/-- No action fires a callback of a cancelled instance. -/
theorem fired_guard (sys : PlayerSys) (a : PAct) (i : Nat)
    (h : pcancelled sys i = true) :
    ((pApply sys a).fired).filter (fun e => e.1 == i)
      = sys.fired.filter (fun e => e.1 == i) := by
  obtain ⟨hf, -⟩ := pApply_shape sys a
  rcases hf with h1 | ⟨j, k, p, hj, hc, h1⟩
  · rw [h1]
  · rw [h1, List.filter_append]
    have hji : j ≠ i := by
      intro e
      subst e
      unfold pcancelled lcancelled at h
      rw [hj] at h
      simp only [] at h
      rw [hc] at h
      exact Bool.false_ne_true h
    have : ((j, k) :: []).filter (fun e : Nat × PCb => e.1 == i) = [] := by
      simp [hji]
    rw [this, List.append_nil]

/-- Along any continuation of a run in which instance i is cancelled,
its filtered callback log never grows and the flag persists. -/
theorem runFrom_cancelled (i : Nat) (acts : List PAct) :
    ∀ sys : PlayerSys, pcancelled sys i = true →
      ((runFrom sys acts).fired).filter (fun e => e.1 == i)
          = sys.fired.filter (fun e => e.1 == i)
        ∧ pcancelled (runFrom sys acts) i = true := by
  induction acts with
  | nil => exact fun sys h => ⟨rfl, h⟩
  | cons a acts ih =>
    intro sys h
    have h2 := pcancelled_mono sys a i h
    have h3 := ih (pApply sys a) h2
    refine ⟨?_, h3.2⟩
    calc ((runFrom (pApply sys a) acts).fired).filter (fun e => e.1 == i)
        = ((pApply sys a).fired).filter (fun e => e.1 == i) := h3.1
      _ = sys.fired.filter (fun e => e.1 == i) := fired_guard sys a i h

/-- C3: for every call playBlob(blob, onEnded, onError) — instance i,
spawned during some prefix of scheduler actions — if the synchronously
returned cancellation function is invoked, then for every interleaving
of the remaining scheduler actions (pending pipeline continuations,
device ended and error events, further playBlob calls) no further
onEnded or onError callback of that instance ever fires: the filtered
callback log after any continuation equals the log at the moment of
cancellation.  The cancellation function is a total function of the
system state in this model (it cannot throw), and repeated invocations
are harmless: applying it twice yields the same state as applying it
once. -/
theorem playBlob_cancel_suppresses (acts1 acts2 : List PAct) (i : Nat)
    (h : i < (run acts1).insts.length) :
    ((run (acts1 ++ PAct.cancel i :: acts2)).fired).filter (fun e => e.1 == i)
        = ((run (acts1 ++ [PAct.cancel i])).fired).filter (fun e => e.1 == i)
      ∧ ∀ sys : PlayerSys,
          pApply (pApply sys (PAct.cancel i)) (PAct.cancel i)
            = pApply sys (PAct.cancel i) := by
  constructor
  · have e1 : acts1 ++ PAct.cancel i :: acts2
        = (acts1 ++ [PAct.cancel i]) ++ acts2 := by simp
    have e2 : run ((acts1 ++ [PAct.cancel i]) ++ acts2)
        = runFrom (run (acts1 ++ [PAct.cancel i])) acts2 := by
      unfold run runFrom
      rw [List.foldl_append]
    have e3 : run (acts1 ++ [PAct.cancel i])
        = pApply (run acts1) (PAct.cancel i) := by
      unfold run runFrom
      rw [List.foldl_append]
      rfl
    have hc : pcancelled (run (acts1 ++ [PAct.cancel i])) i = true := by
      rw [e3]
      exact lcancelled_setCancelled_self i (run acts1).insts h
    rw [e1, e2]
    exact (runFrom_cancelled i acts2 _ hc).1
  · intro sys
    simp only [pApply, setCancelled_idem]

/-- Witness for C3 at a concrete input: one playBlob call, its
cancellation, then its three pending pipeline segments and both device
events — nothing of instance 0 fires after the cancellation. -/
theorem playBlob_cancel_suppresses_witness :
    0 < (run [PAct.play { convOk := true, readyOk := true, playOk := true }]).insts.length
      ∧ (((run ([PAct.play { convOk := true, readyOk := true, playOk := true }]
            ++ PAct.cancel 0
              :: [PAct.step 0, PAct.step 0, PAct.step 0, PAct.evEnded,
                  PAct.evError])).fired).filter (fun e => e.1 == 0)
            = ((run ([PAct.play { convOk := true, readyOk := true, playOk := true }]
                ++ [PAct.cancel 0])).fired).filter (fun e => e.1 == 0)
          ∧ ∀ sys : PlayerSys,
              pApply (pApply sys (PAct.cancel 0)) (PAct.cancel 0)
                = pApply sys (PAct.cancel 0)) :=
  ⟨by decide,
   playBlob_cancel_suppresses
     [PAct.play { convOk := true, readyOk := true, playOk := true }]
     [PAct.step 0, PAct.step 0, PAct.step 0, PAct.evEnded, PAct.evError]
     0 (by decide)⟩

/-- C2 counterexample: play instance 0 (whose readiness wait will
reject), then play instance 1 while 0 is still suspended on its data
URI conversion.  At the moment of the second call nothing has fired;
scheduling the two pending continuations of instance 0 afterwards fires
the FIRST playback's onError — so the first call's callbacks are not
dead after the second play, refuting the claim for this interleaving. -/
theorem playBlob_supersede_counterexample :
    (run [PAct.play { convOk := true, readyOk := false, playOk := true },
          PAct.play { convOk := true, readyOk := true, playOk := true }]).fired
        = []
      ∧ (run [PAct.play { convOk := true, readyOk := false, playOk := true },
              PAct.play { convOk := true, readyOk := true, playOk := true },
              PAct.step 0, PAct.step 0]).fired = [(0, PCb.error)] :=
  ⟨by decide, by decide⟩

/-- C2 amended: a second playBlob call synchronously halts the shared
output device and detaches whatever was installed on it — after the
call the element is paused, its src is removed and both handler slots
are empty, so a device completion event arriving right after the call
invokes no callback of any prior playback.  (The counterexample shows
the stronger reading of the claim is false: a prior pipeline suspended
inside its own continuation is not cancelled by supersession and can
still route to its onError later, unless its cancellation function is
invoked.) -/
theorem playBlob_supersede_detaches (sys : PlayerSys) (b : PBehavior) :
    (pApply sys (PAct.play b)).audio.onended = none
      ∧ (pApply sys (PAct.play b)).audio.onerror = none
      ∧ (pApply sys (PAct.play b)).audio.srcOf = none
      ∧ (pApply sys (PAct.play b)).audio.paused = true
      ∧ (pApply (pApply sys (PAct.play b)) PAct.evEnded).fired
          = (pApply sys (PAct.play b)).fired
      ∧ (pApply (pApply sys (PAct.play b)) PAct.evError).fired
          = (pApply sys (PAct.play b)).fired :=
  ⟨rfl, rfl, rfl, rfl, rfl, rfl⟩

/-- C4: stop() always resolves within the fixed 3000 ms timeout bound:
for every recorder state, platform class and device behaviour the
promise resolution time is at most now + 3000; and in particular when
the device never delivers its stop signal (and does not throw), a
recorder in the recording state resolves exactly at now + 3000 with an
artifact built from the data buffered so far. -/
theorem recorder_stop_always_resolves (now : Nat) (apple : Bool)
    (dev : DevBehavior) (s : RecState) :
    (recStop now apple dev s).resolveAt ≤ now + 3000
      ∧ (s.stopped = false → s.devState = MRState.recording →
          dev.stopThrows = false → dev.onstopDelay = none →
          (recStop now apple dev s).resolveAt = now + 3000
            ∧ (recStop now apple dev s).artifact.blob.data = s.chunks.flatten) := by
  constructor
  · unfold recStop
    repeat' split
    all_goals simp
    all_goals omega
  · intro h1 h2 h3 h4
    obtain ⟨chunks, mt, rmt, st, stopped, ds⟩ := s
    obtain ⟨rdt, sthrow, onsd, fl⟩ := dev
    simp only at h1 h2 h3 h4
    subst h1
    subst h2
    subst h3
    subst h4
    exact ⟨rfl, rfl⟩

/-- Witness for C4: a recording-state recorder whose device neither
throws nor ever signals stop resolves exactly 3000 ms after the stop
call, with the buffered chunk. -/
theorem recorder_stop_always_resolves_witness :
    (({ chunks := [[7]], mimeType := "audio/mp4", recMimeType := "",
        startTime := 100, stopped := false,
        devState := MRState.recording } : RecState).stopped = false
      ∧ ({ chunks := [[7]], mimeType := "audio/mp4", recMimeType := "",
           startTime := 100, stopped := false,
           devState := MRState.recording } : RecState).devState
          = MRState.recording
      ∧ ({ requestDataThrows := false, stopThrows := false,
           onstopDelay := none, flushedChunks := [] } : DevBehavior).stopThrows
          = false
      ∧ ({ requestDataThrows := false, stopThrows := false,
           onstopDelay := none, flushedChunks := [] } : DevBehavior).onstopDelay
          = none)
      ∧ ((recStop 500 true
            { requestDataThrows := false, stopThrows := false,
              onstopDelay := none, flushedChunks := [] }
            { chunks := [[7]], mimeType := "audio/mp4", recMimeType := "",
              startTime := 100, stopped := false,
              devState := MRState.recording }).resolveAt ≤ 500 + 3000
          ∧ (({ chunks := [[7]], mimeType := "audio/mp4", recMimeType := "",
                startTime := 100, stopped := false,
                devState := MRState.recording } : RecState).stopped = false →
              ({ chunks := [[7]], mimeType := "audio/mp4", recMimeType := "",
                 startTime := 100, stopped := false,
                 devState := MRState.recording } : RecState).devState
                  = MRState.recording →
              ({ requestDataThrows := false, stopThrows := false,
                 onstopDelay := none, flushedChunks := [] } : DevBehavior).stopThrows
                  = false →
              ({ requestDataThrows := false, stopThrows := false,
                 onstopDelay := none, flushedChunks := [] } : DevBehavior).onstopDelay
                  = none →
              (recStop 500 true
                { requestDataThrows := false, stopThrows := false,
                  onstopDelay := none, flushedChunks := [] }
                { chunks := [[7]], mimeType := "audio/mp4", recMimeType := "",
                  startTime := 100, stopped := false,
                  devState := MRState.recording }).resolveAt = 500 + 3000
                ∧ (recStop 500 true
                    { requestDataThrows := false, stopThrows := false,
                      onstopDelay := none, flushedChunks := [] }
                    { chunks := [[7]], mimeType := "audio/mp4", recMimeType := "",
                      startTime := 100, stopped := false,
                      devState := MRState.recording }).artifact.blob.data
                  = ([[7]] : List (List Nat)).flatten)) :=
  ⟨⟨rfl, rfl, rfl, rfl⟩,
   recorder_stop_always_resolves 500 true
     { requestDataThrows := false, stopThrows := false,
       onstopDelay := none, flushedChunks := [] }
     { chunks := [[7]], mimeType := "audio/mp4", recMimeType := "",
       startTime := 100, stopped := false, devState := MRState.recording }⟩

/-- C5: when the stream health check reports not-live at the moment
start() is called, start fails with MicDead, issues no device
interaction, and leaves the recorder state completely unchanged (buffer
not reset, no start timestamp recorded, idle as before). -/
theorem recorder_start_micdead (now : Nat) (apple startThrows : Bool)
    (stream : MediaStream) (s : RecState)
    (h : isStreamActive stream = false) :
    recStart now apple startThrows stream s = (s, [], some RecErr.micDead) := by
  unfold recStart
  rw [h]
  rfl

/-- Witness for C5: a stream with no audio track reports not-live and
start fails with MicDead leaving a fresh recorder untouched. -/
theorem recorder_start_micdead_witness :
    isStreamActive { audioTracks := [] } = false
      ∧ recStart 42 false false { audioTracks := [] }
          (createRecorderState (fun _ => some true) "")
        = (createRecorderState (fun _ => some true) "", [],
           some RecErr.micDead) :=
  ⟨rfl,
   recorder_start_micdead 42 false false { audioTracks := [] }
     (createRecorderState (fun _ => some true) "") rfl⟩

/-- C9: on a recorder whose start() was never called, stop() resolves
immediately (at the call time), with an empty encodedAudio, a duration
of exactly 0 thanks to the unset startTime guard, and no stop
instruction issued to the device. -/
theorem recorder_stop_before_start (o : String → Option Bool)
    (recMime : String) (now : Nat) (apple : Bool) (dev : DevBehavior) :
    (recStop now apple dev (createRecorderState o recMime)).resolveAt = now
      ∧ (recStop now apple dev (createRecorderState o recMime)).artifact.blob.data
          = []
      ∧ (recStop now apple dev (createRecorderState o recMime)).artifact.duration
          = 0
      ∧ (recStop now apple dev (createRecorderState o recMime)).devOps = [] :=
  ⟨rfl, rfl, rfl, rfl⟩

/-- C10: after the device reports an error event while recording (the
onerror handler marks the recorder stopped), isRecording() is false
from then on, and a subsequent stop() resolves immediately with the
blob built from the chunks buffered before the error, issuing no device
interaction. -/
theorem recorder_error_event_stops (s : RecState) (c : List Nat)
    (now : Nat) (apple : Bool) (dev : DevBehavior) :
    recIsRecording (recOnError (recOnData c s)) = false
      ∧ (recStop now apple dev (recOnError (recOnData c s))).resolveAt = now
      ∧ (recStop now apple dev (recOnError (recOnData c s))).artifact.blob
          = buildBlob (recOnData c s)
      ∧ (recStop now apple dev (recOnError (recOnData c s))).devOps = [] :=
  ⟨rfl, rfl, rfl, rfl⟩

/-- C6 counterexample: the bare recorder.start call in start() sits
outside any try/catch, so a device fault thrown there surfaces to the
caller on a perfectly live stream — an error other than MicDead escapes
a Recorder operation, refuting the claim that MicDead is the only error
a Recorder ever surfaces. -/
theorem recorder_start_surfaces_devicefault :
    (recStart 0 true true { audioTracks := [TrackState.live] }
        (createRecorderState (fun _ => some false) "")).2.2
        = some RecErr.deviceFault
      ∧ (some RecErr.deviceFault ≠ some RecErr.micDead) :=
  ⟨rfl, by decide⟩

/-- C6 amended: stop() never throws and never rejects: when the device
throws synchronously at the stop instruction, the error is caught and
stop resolves immediately with the artifact finalized from the buffered
chunks exactly as the timeout path builds it (buildBlob over the buffer
plus the elapsed-time duration).  At start(), the surfaced error is
MicDead exactly when the health check fails, and otherwise only a
synchronous device fault of the uncaught recorder.start call — which
escapes, so MicDead at start is not the only surfaceable error. -/
theorem recorder_faults_absorbed (now : Nat) (apple : Bool)
    (dev : DevBehavior) (s : RecState)
    (h1 : s.stopped = false) (h2 : s.devState = MRState.recording)
    (h3 : dev.stopThrows = true) :
    recStop now apple dev s
        = { resolveAt := now
            artifact :=
              { blob := buildBlob s
                duration := ((now - s.startTime : ℕ) : ℚ) / 1000 }
            stateAfter := { s with stopped := true }
            devOps := (if apple then [DevOp.requestData] else [])
              ++ [DevOp.stop] }
      ∧ ∀ (n2 : Nat) (a2 th : Bool) (stream : MediaStream) (s2 : RecState),
          (recStart n2 a2 th stream s2).2.2
            = (if isStreamActive stream = false then some RecErr.micDead
               else if th = true then some RecErr.deviceFault else none) := by
  constructor
  · obtain ⟨chunks, mt, rmt, st, stopped, ds⟩ := s
    obtain ⟨rdt, sthrow, onsd, fl⟩ := dev
    simp only at h1 h2 h3
    subst h1
    subst h2
    subst h3
    rfl
  · intro n2 a2 th stream s2
    unfold recStart
    cases h : isStreamActive stream <;> cases th <;> simp [h]

/-- Recorder mid-recording used to witness the fault absorption of
stop(). -/
def c6state : RecState :=
  { chunks := [[9]], mimeType := "audio/webm", recMimeType := "",
    startTime := 200, stopped := false, devState := MRState.recording }

/-- Device that throws synchronously at the stop instruction. -/
def c6dev : DevBehavior :=
  { requestDataThrows := false, stopThrows := true,
    onstopDelay := none, flushedChunks := [] }

/-- Witness for C6 amended: a device that throws at stop is absorbed,
resolving at the call time with the buffered chunk. -/
theorem recorder_faults_absorbed_witness :
    (c6state.stopped = false ∧ c6state.devState = MRState.recording
        ∧ c6dev.stopThrows = true)
      ∧ (recStop 900 false c6dev c6state
          = { resolveAt := 900
              artifact :=
                { blob := buildBlob c6state
                  duration := ((900 - c6state.startTime : ℕ) : ℚ) / 1000 }
              stateAfter := { c6state with stopped := true }
              devOps := (if false then [DevOp.requestData] else [])
                ++ [DevOp.stop] }
          ∧ ∀ (n2 : Nat) (a2 th : Bool) (stream : MediaStream) (s2 : RecState),
              (recStart n2 a2 th stream s2).2.2
                = (if isStreamActive stream = false then some RecErr.micDead
                   else if th = true then some RecErr.deviceFault
                   else none)) :=
  ⟨⟨rfl, rfl, rfl⟩,
   recorder_faults_absorbed 900 false c6dev c6state rfl rfl rfl⟩

/-- C7: for every ordered candidate list and every platform capability
query, the negotiator returns exactly the first candidate in list order
the query affirms, and the empty string when there is none (that is the
find-first characterisation); and a query that throws on some candidate
(modelled as none) is treated as not supported for that candidate: the
result is unchanged if every throw is replaced by a plain negative
answer. -/
theorem mime_negotiator_first_supported (o : String → Option Bool)
    (l : List String) :
    getSupportedMimeType o l = ((l.find? fun t => o t == some true).getD "")
      ∧ getSupportedMimeType (fun t => some ((o t).getD false)) l
          = getSupportedMimeType o l := by
  constructor
  · induction l with
    | nil => rfl
    | cons t rest ih =>
      unfold getSupportedMimeType
      cases ho : o t with
      | none => simp [List.find?, ho, ih]
      | some b => cases b <;> simp [List.find?, ho, ih]
  · induction l with
    | nil => rfl
    | cons t rest ih =>
      unfold getSupportedMimeType
      cases ho : o t with
      | none => simp [ho, ih]
      | some b => cases b <;> simp [ho, ih]

/-- C8 counterexample: two back-to-back prime() invocations on a fresh
state, with the first unlock play promise not yet settled in between
(audioPrimed is only set asynchronously in its then-continuation) —
both calls perform the unlock device interaction, refuting "invoked
twice performs the unlock device interaction only once" as a universal
statement. -/
theorem primeAudio_double_call_counterexample :
    (primeAudio { primed := false, src := none }).2 = true
      ∧ (primeAudio (primeAudio { primed := false, src := none }).1).2
          = true :=
  ⟨rfl, rfl⟩

/-- C8 amended: on an unprimed state, prime() performs the unlock
interaction; the primed mark is set only by the successful resolution
of the unlock play promise, after which the next prime() call performs
no device interaction; a rejected attempt leaves the state unprimed, so
the next call transparently retries the unlock; but a second call made
before the first promise settles performs the interaction a second
time. -/
theorem primeAudio_unlock_behaviour (st : PrimeSt)
    (h : st.primed = false) :
    (primeAudio st).2 = true
      ∧ (primeAudio (primeThen (primeAudio st).1)).2 = false
      ∧ (primeThen (primeAudio st).1).primed = true
      ∧ (primeCatch (primeAudio st).1).primed = false
      ∧ (primeAudio (primeCatch (primeAudio st).1)).2 = true := by
  obtain ⟨primed, src⟩ := st
  simp only at h
  subst h
  exact ⟨rfl, rfl, rfl, rfl, rfl⟩

/-- Witness for C8 amended on the fresh priming state. -/
theorem primeAudio_unlock_behaviour_witness :
    ({ primed := false, src := none } : PrimeSt).primed = false
      ∧ ((primeAudio { primed := false, src := none }).2 = true
          ∧ (primeAudio
              (primeThen (primeAudio { primed := false, src := none }).1)).2
              = false
          ∧ (primeThen
              (primeAudio { primed := false, src := none }).1).primed = true
          ∧ (primeCatch
              (primeAudio { primed := false, src := none }).1).primed = false
          ∧ (primeAudio
              (primeCatch (primeAudio { primed := false, src := none }).1)).2
              = true) :=
  ⟨rfl, primeAudio_unlock_behaviour { primed := false, src := none } rfl⟩
